import Mathlib

/-!
Verification of the lidar extraction pipeline of `src/sensors/lidar.py`
(RosBagExtractor).  The embedding models rational arithmetic for the
floating-point values handled by the decoders, explicit `Option` fields for
possibly-missing (NaN) coordinates, and `Except` for fallible decoding.
External collaborators (the bag reader, `pc2.read_points` with
`skip_nans=True`, `yaml`/`LaserProjection`, `msg_to_timestamp`,
`BaseExtraction`) are modelled by their interface as documented in the
specification, with the per-sensor logic translated from the source.
-/

/-- Python `int()` applied to a real value: truncation toward zero.  This is
the conversion applied by `int(t_s * 1e9)` in `singleVelodyne`. -/
def pyInt (q : ℚ) : ℤ := if 0 ≤ q then ⌊q⌋ else ⌈q⌉

/-- Python `str.replace("nan", "60")` on the character list of the message,
scanning left to right and replacing every (non-overlapping) occurrence of
the three-character token `nan` by `60` (source line 95). -/
def replaceNan60 : List Char → List Char
  | 'n' :: 'a' :: 'n' :: rest => '6' :: '0' :: replaceNan60 rest
  | c :: rest => c :: replaceNan60 rest
  | [] => []

/-- The payload rewrite `msg.replace("nan", "60")` of `singleHokuyo`. -/
def pyReplaceNan (s : String) : String := ⟨replaceNan60 s.data⟩

/-- Kernel-reducible decidability of the lexicographic string order, used so
that sorting concrete manifests can be evaluated inside proofs. -/
def decStrLe : DecidableRel (fun a b : String => a ≤ b) := fun a b =>
  decidable_of_iff (¬ b.toList < a.toList) (not_lt.trans String.le_iff_toList_le.symm)

/-- Ascending sort of the manifest accumulator, the model of
`np.sort(np.array(data))` on an array of filename strings (source line 68):
the unique ascending reordering of the entries. -/
def sortStr (l : List String) : List String :=
  @List.insertionSort String (· ≤ ·) decStrLe l

/-- One 3-component record: a point `(x, y, z)` or an attribute triple
`(intensity, ring, time_offset_ns)` as stored by the writer. -/
abbrev Vec3 := ℚ × ℚ × ℚ

/-- Result of one `o3d.io.write_point_cloud` call: the geometry channel and
the optional normals channel holding the attribute triples. -/
structure PLYFile where
  points : List Vec3
  normals : Option (List Vec3)
  deriving DecidableEq

/-- Model of `normals.any()` on the numpy array built from the attribute
triples: true iff some scalar entry is nonzero (an empty array gives
`False`). -/
def npAnyTriple (l : List Vec3) : Bool :=
  l.any fun a => decide (a.1 ≠ 0 ∨ a.2.1 ≠ 0 ∨ a.2.2 ≠ 0)

/-- The writer `savePLY` (source lines 178-186): geometry is always stored;
the attribute triples are stored as the normals channel only when
`normals.any()` holds. -/
def savePLY (points : List Vec3) (normals : List Vec3) : PLYFile :=
  { points := points
    normals := if npAnyTriple normals then some normals else none }

/-- Observable side effects of one `single*` call, in program order:
appending a filename to the manifest accumulator `data`, and writing one
point-cloud file. -/
inductive Event where
  | append (fn : String)
  | write (fn : String) (ply : PLYFile)
  deriving DecidableEq

/-- One decoded frame: the filename derived from the message timestamp, the
decoded geometry, the decoded attribute triples, and the side effects the
decode performed, in order. -/
structure Frame where
  filename : String
  xyz : List Vec3
  irt : List Vec3
  events : List Event
  deriving DecidableEq

/-- The supported sensor list `Lidar.list()` (source lines 15-27). -/
def lidarList : List String := ["hokuyo", "ouster", "velodyne"]

/-- Errors a run can surface: the construction-time configuration error and
a fatal decode failure. -/
inductive RunError where
  | config (msg : String)
  | decodeFail
  deriving DecidableEq

/-- State stored by `LidarExtraction.__init__` on success (source lines
34-42). -/
structure LidarState where
  sensor : String
  name : String
  available_point_time : Bool
  deriving DecidableEq

/-- Constructor `LidarExtraction.__init__` (source lines 34-42): the
unsupported-sensor check raising `ValueError`, else the stored state with
`available_point_time = False`.  The prior `super().__init__` call is
modelled from the spec: `BaseExtraction.__init__` (sensors/base.py, not
under src/) only records configuration; it processes no message and writes
no file. -/
def lidarInit (lidar : String) : Except RunError LidarState :=
  if lidar ∈ lidarList then
    .ok { sensor := lidar, name := lidar, available_point_time := false }
  else
    .error (.config ("\"" ++ lidar ++ "\" lidar sensor type not supported"))

/-- A parsed Hokuyo `LaserScan` (source lines 71-87): the angular sweep
parameters, the valid range interval, and the per-beam ranges, `none`
standing for a missing/NaN beam. -/
structure HokuyoScan where
  angle_min : ℚ
  angle_increment : ℚ
  range_min : ℚ
  range_max : ℚ
  ranges : List (Option ℚ)

/-- Whether one beam survives projection: its range is present and inside
`[range_min, range_max]` (the projector discards the rest). -/
def hokuyoValidBeam (rmin rmax : ℚ) : Option ℚ → Bool
  | none => false
  | some r => decide (rmin ≤ r ∧ r ≤ rmax)

/-- The polar-to-Cartesian sweep of `LaserProjection.projectLaser` (external
collaborator, modelled from the spec): beam `i` has angle
`angle_min + i * angle_increment`; `proj` abstracts the trigonometric map
from (angle, range) to planar coordinates; invalid beams produce nothing and
every projected point has `z = 0`. -/
def projectBeams (proj : ℚ → ℚ → ℚ × ℚ) (amin inc rmin rmax : ℚ) :
    ℕ → List (Option ℚ) → List Vec3
  | _, [] => []
  | i, r? :: rest =>
    match r? with
    | some r =>
      if rmin ≤ r ∧ r ≤ rmax then
        ((proj (amin + (i : ℚ) * inc) r).1, (proj (amin + (i : ℚ) * inc) r).2, 0) ::
          projectBeams proj amin inc rmin rmax (i + 1) rest
      else projectBeams proj amin inc rmin rmax (i + 1) rest
    | none => projectBeams proj amin inc rmin rmax (i + 1) rest

/-- The cloud produced for one Hokuyo scan. -/
def hokuyoProject (proj : ℚ → ℚ → ℚ × ℚ) (scan : HokuyoScan) : List Vec3 :=
  projectBeams proj scan.angle_min scan.angle_increment scan.range_min scan.range_max
    0 scan.ranges

/-- The frame built by `singleHokuyo` once a cloud is obtained (source lines
98-111): filename `str(timestamp) + ".ply"`, the projected geometry, an
empty attribute array `irt_s = np.array([])`, and the side effects in
program order: the `data.append(filename)` on line 101 followed by the
`savePLY` call on line 111. -/
def mkHokuyoFrame (stamp : ℕ) (cloud : List Vec3) : Frame :=
  { filename := toString stamp ++ ".ply"
    xyz := cloud
    irt := []
    events := [.append (toString stamp ++ ".ply"),
               .write (toString stamp ++ ".ply") (savePLY cloud [])] }

/-- Decoder `singleHokuyo` (source lines 89-111).  `load` abstracts the
external `loadHokuyo` pipeline (yaml parse, `LaserScan` construction,
`projectLaser`, `pc2.read_points` on the result); `stampOf` abstracts the
external `msg_to_timestamp`.  The try/except retries the load exactly once
on the nan-substituted payload; the reassignment of `msg` on line 95 means
the timestamp of the retry path is taken from the substituted payload. -/
def singleHokuyo (load : String → Except Unit (List Vec3)) (stampOf : String → ℕ)
    (msg : String) : Except Unit Frame :=
  match load msg with
  | .ok cloud => .ok (mkHokuyoFrame (stampOf msg) cloud)
  | .error _ =>
    match load (pyReplaceNan msg) with
    | .ok cloud => .ok (mkHokuyoFrame (stampOf (pyReplaceNan msg)) cloud)
    | .error e => .error e

/-- One raw Ouster point with the six requested fields
`x, y, z, intensity, t, ring`; a coordinate is `none` when the raw value is
NaN. -/
structure OusterRawPoint where
  x : Option ℚ
  y : Option ℚ
  z : Option ℚ
  intensity : ℚ
  t : ℤ
  ring : ℤ
  deriving DecidableEq

/-- One Ouster message: its metadata timestamp (the value
`msg_to_timestamp` extracts, modelled from the spec as nanosecond epoch
metadata) and its raw points. -/
structure OusterMsg where
  stamp : ℕ
  points : List OusterRawPoint
  deriving DecidableEq

/-- Whether a raw point has all three coordinates present. -/
def ousterHasCoords (p : OusterRawPoint) : Bool :=
  p.x.isSome && p.y.isSome && p.z.isSome

/-- The external `pc2.read_points_list(..., skip_nans=True)` call, modelled
from the spec's interface: points with a missing coordinate are skipped
during iteration, not an error. -/
def readOusterSkipNans (pts : List OusterRawPoint) :
    List (ℚ × ℚ × ℚ × ℚ × ℤ × ℤ) :=
  pts.filterMap fun p =>
    match p.x, p.y, p.z with
    | some x, some y, some z => some (x, y, z, p.intensity, p.t, p.ring)
    | _, _, _ => none

/-- Decoder `singleOuster` (source lines 113-140): append the filename to
the accumulator, read the point tuples, build `xyz_s` and the attribute
triples `[i, r, t_ms]` with `t_ms = t` used as-is, and write the file. -/
def singleOuster (m : OusterMsg) : Frame :=
  let fn := toString m.stamp ++ ".ply"
  let pts := readOusterSkipNans m.points
  let xyz_s := pts.map fun q => (q.1, q.2.1, q.2.2.1)
  let irt_s := pts.map fun q => (q.2.2.2.1, (q.2.2.2.2.2 : ℚ), (q.2.2.2.2.1 : ℚ))
  { filename := fn
    xyz := xyz_s
    irt := irt_s
    events := [.append fn, .write fn (savePLY xyz_s irt_s)] }

/-- One raw Velodyne point.  The source requests the contracted field list
`x, y, z, intensity, ring` (line 146) and keeps the full Velodyne list with
the per-point `time` field in the adjacent comment (line 144); the
`available_point_time = False` branch of the loop unpacks a sixth
per-point component `t_s` (line 165), so the record carries the raw time
value in seconds that this branch consumes. -/
structure VelRawPoint where
  x : Option ℚ
  y : Option ℚ
  z : Option ℚ
  intensity : ℚ
  ring : ℤ
  time : ℚ
  deriving DecidableEq

/-- One Velodyne message: metadata timestamp and raw points. -/
structure VelMsg where
  stamp : ℕ
  points : List VelRawPoint
  deriving DecidableEq

/-- Whether a raw Velodyne point has all three coordinates present. -/
def velHasCoords (p : VelRawPoint) : Bool :=
  p.x.isSome && p.y.isSome && p.z.isSome

/-- The external `pc2.read_points_list(..., skip_nans=True)` call for
Velodyne, modelled from the spec's interface as for Ouster. -/
def readVelSkipNans (pts : List VelRawPoint) :
    List (ℚ × ℚ × ℚ × ℚ × ℤ × ℚ) :=
  pts.filterMap fun p =>
    match p.x, p.y, p.z with
    | some x, some y, some z => some (x, y, z, p.intensity, p.ring, p.time)
    | _, _, _ => none

/-- The per-point attribute triple of `singleVelodyne` (source lines
159-168): with `available_point_time` the triple is `[i, r, 0]`; without it
the raw per-point time in seconds is converted by `t_ms = int(t_s * 1e9)`
to `[i, r, t_ms]`. -/
def velPointIrt (available_point_time : Bool) (i : ℚ) (r : ℤ) (t_s : ℚ) : Vec3 :=
  if available_point_time then (i, (r : ℚ), 0)
  else (i, (r : ℚ), ((pyInt (t_s * 1000000000) : ℤ) : ℚ))

/-- Decoder `singleVelodyne` (source lines 142-176). -/
def singleVelodyne (available_point_time : Bool) (m : VelMsg) : Frame :=
  let fn := toString m.stamp ++ ".ply"
  let pts := readVelSkipNans m.points
  let xyz_s := pts.map fun q => (q.1, q.2.1, q.2.2.1)
  let irt_s := pts.map fun q =>
    velPointIrt available_point_time q.2.2.2.1 q.2.2.2.2.1 q.2.2.2.2.2
  { filename := fn
    xyz := xyz_s
    irt := irt_s
    events := [.append fn, .write fn (savePLY xyz_s irt_s)] }

/-- The manifest header `CLOUD_HEADER` (source line 31). -/
def cloudHeader : String := "timestamp [ns]"

/-- Content of `saveCSV` (source lines 188-198): `np.savetxt` with format
`%s`, newline-terminated rows, and the header line prefixed by `# `. -/
def saveCSVLines (data : List String) : List String :=
  ("# " ++ cloudHeader) :: data

/-- Sequential decoding of the message stream: the first failure aborts the
whole run, as an uncaught exception does in `extract`. -/
def decodeAll {Msg : Type} (decode : Msg → Except Unit Frame) :
    List Msg → Except Unit (List Frame)
  | [] => .ok []
  | m :: ms =>
    match decode m with
    | .error e => .error e
    | .ok f =>
      match decodeAll decode ms with
      | .error e => .error e
      | .ok fs => .ok (f :: fs)

/-- The frame a message decodes to, defaulting on failure (used only to
describe successful runs). -/
def frameOf {Msg : Type} (decode : Msg → Except Unit Frame) (m : Msg) : Frame :=
  match decode m with
  | .ok f => f
  | .error _ => { filename := "", xyz := [], irt := [], events := [] }

/-- Modelled from the spec: `BaseExtraction.isAvailable` (sensors/base.py,
not under src/) reports whether any segment/message is available for the
configured topic; the bags are given as the per-segment lists of messages
already filtered to that topic. -/
def isAvailable {Msg : Type} (bags : List (List Msg)) : Bool :=
  !bags.flatten.isEmpty

/-- Observable output of a run: the filenames of the written point-cloud
files and, when emitted, the manifest lines. -/
structure RunOut where
  files : List String
  manifestLines : Option (List String)
  deriving DecidableEq

/-- Orchestrator `extract` (source lines 48-69): short-circuit when nothing
is available, decode every message of every bag in order accumulating the
filenames, then sort the accumulator and emit the manifest once. -/
def extractWith {Msg : Type} (decode : Msg → Except Unit Frame)
    (bags : List (List Msg)) : Except Unit RunOut :=
  if isAvailable bags then
    match decodeAll decode bags.flatten with
    | .error e => .error e
    | .ok frames =>
      let data := frames.map fun f => f.filename
      .ok { files := data, manifestLines := some (saveCSVLines (sortStr data)) }
  else .ok { files := [], manifestLines := none }

/-- The manifest a run emitted, if any (an aborted run emits none). -/
def manifestOf : Except Unit RunOut → Option (List String)
  | .ok out => out.manifestLines
  | .error _ => none

/-- A whole run including construction: `lidarInit` first, then the
extraction; a construction error surfaces before any extraction output
exists. -/
def runExtraction {Msg : Type} (lidar : String) (decode : Msg → Except Unit Frame)
    (bags : List (List Msg)) : Except RunError RunOut :=
  match lidarInit lidar with
  | .error e => .error e
  | .ok _ =>
    match extractWith decode bags with
    | .error _ => .error .decodeFail
    | .ok out => .ok out

/-- Fixture: a linear stand-in for the trigonometric projection map. -/
def projLin (a r : ℚ) : ℚ × ℚ := (r * a, r)

/-- Fixture: a Hokuyo scan with one valid beam, one missing beam and one
out-of-range beam. -/
def scanA : HokuyoScan :=
  { angle_min := 0, angle_increment := 1, range_min := 0, range_max := 60,
    ranges := [some 1, none, some 100] }

/-- Fixture: an Ouster message with one valid point and one point whose x
coordinate is missing. -/
def oustMsgA : OusterMsg :=
  { stamp := 7,
    points := [{ x := some 1, y := some 2, z := some 3, intensity := 4, t := 5, ring := 6 },
               { x := none, y := some 1, z := some 1, intensity := 1, t := 1, ring := 1 }] }

/-- Fixture: an Ouster message with no points. -/
def oustMsgB : OusterMsg := { stamp := 7, points := [] }

/-- Fixture: a Velodyne message with one valid point. -/
def velMsgA : VelMsg :=
  { stamp := 9,
    points := [{ x := some 1, y := some 2, z := some 3, intensity := 4, ring := 5, time := 6 }] }

/-- Fixture: a total decoder on natural-number messages. -/
def decodeNat (n : ℕ) : Except Unit Frame := .ok (mkHokuyoFrame n [])

/-- Fixture: a timestamp extractor on string messages. -/
def stampLen (s : String) : ℕ := s.length

/-- Fixture: a Hokuyo load that fails exactly on the payload `"r: nan"`. -/
def loadA (s : String) : Except Unit (List Vec3) :=
  if s = "r: nan" then .error () else .ok [(1, 2, 0)]

/-- Fixture: a Hokuyo load that always fails. -/
def loadFail (_ : String) : Except Unit (List Vec3) := .error ()

/-- Fixture: a Hokuyo load that always yields the empty cloud. -/
def loadNil (_ : String) : Except Unit (List Vec3) := .ok []

theorem sortStr_sorted (l : List String) : List.Sorted (· ≤ ·) (sortStr l) :=
  @List.sorted_insertionSort String (· ≤ ·) decStrLe inferInstance inferInstance l

theorem sortStr_perm (l : List String) : (sortStr l).Perm l :=
  @List.perm_insertionSort String (· ≤ ·) decStrLe l

theorem sortStr_congr {l₁ l₂ : List String} (h : l₁.Perm l₂) : sortStr l₁ = sortStr l₂ :=
  @List.eq_of_perm_of_sorted String (· ≤ ·) inferInstance _ _
    (((sortStr_perm l₁).trans h).trans (sortStr_perm l₂).symm)
    (sortStr_sorted l₁) (sortStr_sorted l₂)

theorem decodeAll_ok {Msg : Type} (decode : Msg → Except Unit Frame) :
    ∀ msgs : List Msg, (∀ m ∈ msgs, (decode m).isOk = true) →
      decodeAll decode msgs = .ok (msgs.map (frameOf decode))
  | [], _ => rfl
  | m :: ms, h => by
    have hm : (decode m).isOk = true := h m (List.mem_cons_self m ms)
    have ih := decodeAll_ok decode ms fun x hx => h x (List.mem_cons_of_mem m hx)
    cases hd : decode m with
    | error e =>
      rw [hd] at hm
      simp [Except.isOk, Except.toBool] at hm
    | ok f =>
      simp [decodeAll, hd, ih, frameOf]

theorem decodeAll_error {Msg : Type} (decode : Msg → Except Unit Frame) :
    ∀ msgs : List Msg, ¬ (∀ m ∈ msgs, (decode m).isOk = true) →
      decodeAll decode msgs = .error ()
  | [], h => absurd (by simp) h
  | m :: ms, h => by
    cases hd : decode m with
    | error e =>
      cases e
      simp [decodeAll, hd]
    | ok f =>
      have hms : ¬ (∀ x ∈ ms, (decode x).isOk = true) := by
        intro hall
        refine h ?_
        intro x hx
        rcases List.mem_cons.mp hx with h1 | h2
        · subst h1
          rw [hd]
          rfl
        · exact hall x h2
      simp [decodeAll, hd, decodeAll_error decode ms hms]

theorem manifest_extractWith {Msg : Type} (decode : Msg → Except Unit Frame)
    (bags : List (List Msg)) :
    manifestOf (extractWith decode bags) =
      if bags.flatten.isEmpty then none
      else if ∀ m ∈ bags.flatten, (decode m).isOk = true then
        some (saveCSVLines (sortStr (bags.flatten.map fun m => (frameOf decode m).filename)))
      else none := by
  cases hempty : bags.flatten.isEmpty with
  | true =>
    rw [if_pos rfl]
    rw [extractWith, isAvailable, hempty]
    rfl
  | false =>
    rw [if_neg (by simp)]
    rw [extractWith, isAvailable, hempty]
    by_cases hall : ∀ m ∈ bags.flatten, (decode m).isOk = true
    · rw [if_pos hall, decodeAll_ok decode bags.flatten hall]
      have hmm : (bags.flatten.map (frameOf decode)).map (fun f => f.filename) =
          bags.flatten.map (fun m => (frameOf decode m).filename) := by
        rw [List.map_map]
        rfl
      show some (saveCSVLines (sortStr
          ((bags.flatten.map (frameOf decode)).map fun f => f.filename))) =
        some (saveCSVLines (sortStr (bags.flatten.map fun m => (frameOf decode m).filename)))
      rw [hmm]
    · rw [if_neg hall, decodeAll_error decode bags.flatten hall]
      rfl

theorem length_readOuster (pts : List OusterRawPoint) :
    (readOusterSkipNans pts).length = (pts.filter ousterHasCoords).length := by
  induction pts with
  | nil => rfl
  | cons p ps ih =>
    simp only [readOusterSkipNans] at ih ⊢
    rcases hx : p.x with _ | x <;> rcases hy : p.y with _ | y <;> rcases hz : p.z with _ | z <;>
      simp [List.filterMap_cons, List.filter_cons, ousterHasCoords, hx, hy, hz, ih]

theorem length_readVel (pts : List VelRawPoint) :
    (readVelSkipNans pts).length = (pts.filter velHasCoords).length := by
  induction pts with
  | nil => rfl
  | cons p ps ih =>
    simp only [readVelSkipNans] at ih ⊢
    rcases hx : p.x with _ | x <;> rcases hy : p.y with _ | y <;> rcases hz : p.z with _ | z <;>
      simp [List.filterMap_cons, List.filter_cons, velHasCoords, hx, hy, hz, ih]

theorem length_projectBeams (proj : ℚ → ℚ → ℚ × ℚ) (amin inc rmin rmax : ℚ) :
    ∀ (i : ℕ) (ranges : List (Option ℚ)),
      (projectBeams proj amin inc rmin rmax i ranges).length =
        (ranges.filter (hokuyoValidBeam rmin rmax)).length
  | _, [] => rfl
  | i, r? :: rest => by
    rcases r? with _ | r
    · simp [projectBeams, hokuyoValidBeam, List.filter_cons,
        length_projectBeams proj amin inc rmin rmax (i + 1) rest]
    · by_cases hr : rmin ≤ r ∧ r ≤ rmax <;>
        simp [projectBeams, hokuyoValidBeam, List.filter_cons, hr,
          length_projectBeams proj amin inc rmin rmax (i + 1) rest]

/-- Claim C4: for every supported sensor type, decoding a message with N
points whose coordinates are all present and M points with a missing/NaN
coordinate yields a frame with exactly N points; a missing-coordinate point
is silently skipped (never retained and never an error), and every decoded
coordinate triple comes verbatim from a raw point whose coordinates were all
present. -/
theorem C4_theorem (proj : ℚ → ℚ → ℚ × ℚ) (scan : HokuyoScan) (om : OusterMsg)
    (apt : Bool) (vm : VelMsg) :
    (hokuyoProject proj scan).length =
      (scan.ranges.filter (hokuyoValidBeam scan.range_min scan.range_max)).length ∧
    (singleOuster om).xyz.length = (om.points.filter ousterHasCoords).length ∧
    (singleVelodyne apt vm).xyz.length = (vm.points.filter velHasCoords).length ∧
    (∀ v ∈ (singleOuster om).xyz, ∃ p ∈ om.points,
      p.x = some v.1 ∧ p.y = some v.2.1 ∧ p.z = some v.2.2) := by
  refine ⟨length_projectBeams proj _ _ _ _ 0 scan.ranges, ?_, ?_, ?_⟩
  · simp [singleOuster, length_readOuster om.points]
  · simp [singleVelodyne, length_readVel vm.points]
  · intro v hv
    simp only [singleOuster, List.mem_map] at hv
    obtain ⟨q, hq, rfl⟩ := hv
    rw [readOusterSkipNans, List.mem_filterMap] at hq
    obtain ⟨p, hp, hpq⟩ := hq
    refine ⟨p, hp, ?_⟩
    rcases hx : p.x with _ | x <;> rcases hy : p.y with _ | y <;>
        rcases hz : p.z with _ | z <;> rw [hx, hy, hz] at hpq <;> cases hpq
    exact ⟨rfl, rfl, rfl⟩

/-- Claim C4 witness at concrete inputs: the fixture scan keeps exactly its
one in-range beam, and the valid Ouster fixture point is recovered
verbatim. -/
theorem C4_witness :
    (hokuyoProject projLin scanA).length =
      (scanA.ranges.filter (hokuyoValidBeam scanA.range_min scanA.range_max)).length ∧
    (∃ p ∈ oustMsgA.points, p.x = some 1 ∧ p.y = some 2 ∧ p.z = some 3) :=
  ⟨(C4_theorem projLin scanA oustMsgA true velMsgA).1,
   (C4_theorem projLin scanA oustMsgA true velMsgA).2.2.2 (1, 2, 3) (by decide)⟩

/-- Claim C1 as stated is false: `singleVelodyne` converts the raw per-point
time with `int(t_s * 1e9)`, which truncates toward zero rather than
rounding; at raw time 1.7e-9 seconds truncation gives 1 ns while rounding
gives 2 ns. -/
theorem C1_counterexample :
    ¬ ∀ (i : ℚ) (r : ℤ) (t_s : ℚ),
        (velPointIrt false i r t_s).2.2 = ((round (t_s * 1000000000) : ℤ) : ℚ) := by
  intro h
  have h17 := h 0 0 (17 / 10000000000)
  have hL : pyInt ((17 : ℚ) / 10000000000 * 1000000000) = 1 := by
    rw [pyInt, if_pos (by norm_num)]
    rw [show ((17 : ℚ) / 10000000000 * 1000000000) = (17 / 10 : ℚ) by norm_num]
    rw [Int.floor_eq_iff]
    norm_num
  have hR : round ((17 : ℚ) / 10000000000 * 1000000000) = 2 := by
    rw [round_eq]
    rw [show ((17 : ℚ) / 10000000000 * 1000000000 + 1 / 2) = (11 / 5 : ℚ) by norm_num]
    rw [Int.floor_eq_iff]
    norm_num
  rw [velPointIrt] at h17
  simp only [Bool.false_eq_true, if_false] at h17
  rw [hL, hR] at h17
  norm_num at h17

/-- Claim C1 (amended): for the Velodyne decoder with
`point_time_available = false`, every decoded point's `time_offset_ns` is
the Python `int()` truncation toward zero of `time_seconds * 1e9` applied to
the message's raw per-point time field; in particular a point with raw time
`t = 0.002` seconds yields `time_offset_ns = 2_000_000`. -/
theorem C1_theorem (m : VelMsg) :
    (singleVelodyne false m).irt =
      (readVelSkipNans m.points).map
        (fun q => (q.2.2.2.1, ((q.2.2.2.2.1 : ℤ) : ℚ),
          ((pyInt (q.2.2.2.2.2 * 1000000000) : ℤ) : ℚ))) ∧
    velPointIrt false 3 7 (2 / 1000) = (3, ((7 : ℤ) : ℚ), 2000000) := by
  constructor
  · simp [singleVelodyne, velPointIrt]
  · rw [velPointIrt]
    simp only [Bool.false_eq_true, if_false]
    have h2 : pyInt ((2 : ℚ) / 1000 * 1000000000) = 2000000 := by
      rw [pyInt, if_pos (by norm_num)]
      rw [show ((2 : ℚ) / 1000 * 1000000000) = ((2000000 : ℤ) : ℚ) by norm_num]
      exact Int.floor_intCast _
    rw [h2]
    norm_num

/-- Claim C5: for the Velodyne decoder with `point_time_available = true`,
every decoded point's `time_offset_ns` equals 0. -/
theorem C5_theorem (m : VelMsg) :
    ∀ a ∈ (singleVelodyne true m).irt, a.2.2 = 0 := by
  intro a ha
  simp only [singleVelodyne, List.mem_map] at ha
  obtain ⟨q, hq, rfl⟩ := ha
  simp [velPointIrt]

/-- Claim C5 witness: the attribute triple decoded from the Velodyne fixture
message has a zero time offset. -/
theorem C5_witness : ((4 : ℚ), ((5 : ℤ) : ℚ), (0 : ℚ)).2.2 = 0 :=
  C5_theorem velMsgA (4, ((5 : ℤ) : ℚ), 0) (by decide)

/-- Claim C2: for the Hokuyo decoder, a successful initial parse is used
as-is; if the initial parse fails, the decode is retried exactly once on the
payload with every occurrence of the `nan` token replaced by the sentinel
range 60, and if that single retry also fails, the failure propagates with
no further retries. -/
theorem C2_theorem (load : String → Except Unit (List Vec3)) (stampOf : String → ℕ)
    (msg : String) :
    (∀ cloud, load msg = .ok cloud →
      singleHokuyo load stampOf msg = .ok (mkHokuyoFrame (stampOf msg) cloud)) ∧
    (∀ cloud, load msg = .error () → load (pyReplaceNan msg) = .ok cloud →
      singleHokuyo load stampOf msg = .ok (mkHokuyoFrame (stampOf (pyReplaceNan msg)) cloud)) ∧
    (load msg = .error () → load (pyReplaceNan msg) = .error () →
      singleHokuyo load stampOf msg = .error ()) := by
  refine ⟨?_, ?_, ?_⟩
  · intro cloud hc
    simp [singleHokuyo, hc]
  · intro cloud h1 h2
    simp [singleHokuyo, h1, h2]
  · intro h1 h2
    simp [singleHokuyo, h1, h2]

/-- Claim C2 witness: the fixture load fails on the raw payload and succeeds
on the nan-substituted payload, so the decode succeeds with the substituted
timestamp source; the always-failing load makes the decode fail after its
single retry. -/
theorem C2_witness :
    singleHokuyo loadA stampLen "r: nan" = .ok (mkHokuyoFrame 5 [(1, 2, 0)]) ∧
    singleHokuyo loadFail stampLen "r: nan" = .error () :=
  ⟨(C2_theorem loadA stampLen "r: nan").2.1 [(1, 2, 0)] (by rfl) (by rfl),
   (C2_theorem loadFail stampLen "r: nan").2.2 rfl rfl⟩

/-- Claim C6: the writer stores the per-point attribute triples as the
normals channel iff some attribute value in the frame is nonzero; an empty
attribute array (the Hokuyo case) or an all-zero attribute array omits the
channel entirely, while the geometry is always written. -/
theorem C6_theorem (ps ns : List Vec3) :
    ((savePLY ps ns).normals = some ns ↔
      ∃ a ∈ ns, a.1 ≠ 0 ∨ a.2.1 ≠ 0 ∨ a.2.2 ≠ 0) ∧
    (savePLY ps ns).points = ps ∧
    (savePLY ps []).normals = none ∧
    ((∀ a ∈ ns, a = (0, 0, 0)) → (savePLY ps ns).normals = none) ∧
    (∀ (stamp : ℕ), (mkHokuyoFrame stamp ps).irt = []) := by
  have hany : npAnyTriple ns = true ↔ ∃ a ∈ ns, a.1 ≠ 0 ∨ a.2.1 ≠ 0 ∨ a.2.2 ≠ 0 := by
    simp [npAnyTriple, List.any_eq_true]
  refine ⟨?_, rfl, rfl, ?_, fun _ => rfl⟩
  · constructor
    · intro h
      by_contra hno
      rw [savePLY] at h
      rw [if_neg (by rw [hany]; exact hno)] at h
      cases h
    · intro h
      rw [savePLY]
      rw [if_pos (hany.mpr h)]
  · intro h
    rw [savePLY]
    rw [if_neg]
    intro htrue
    obtain ⟨a, ha, hne⟩ := hany.mp htrue
    rcases hne with h1 | h1 | h1 <;> rw [h a ha] at h1 <;> exact h1 rfl

/-- Claim C6 witness: an empty attribute array and an all-zero attribute
array both omit the normals channel. -/
theorem C6_witness :
    (savePLY [((1 : ℚ), 1, 1)] []).normals = none ∧
    (savePLY [((1 : ℚ), 1, 1)] [(0, 0, 0), (0, 0, 0)]).normals = none :=
  ⟨(C6_theorem [(1, 1, 1)] []).2.2.1,
   (C6_theorem [(1, 1, 1)] [(0, 0, 0), (0, 0, 0)]).2.2.2.1 (by decide)⟩

/-- Claim C7: constructing an extractor with a sensor type outside the
supported list fails immediately with the configuration error, before any
message is processed and before any output exists, while the three
supported values construct successfully. -/
theorem C7_theorem {Msg : Type} (decode : Msg → Except Unit Frame)
    (bags : List (List Msg)) (s : String) :
    (s ∉ lidarList → runExtraction s decode bags =
      .error (RunError.config ("\"" ++ s ++ "\" lidar sensor type not supported"))) ∧
    (s ∈ lidarList → lidarInit s =
      .ok { sensor := s, name := s, available_point_time := false }) := by
  constructor
  · intro h
    simp [runExtraction, lidarInit, h]
  · intro h
    simp [lidarInit, h]

/-- Claim C7 witness: `"radar"` is rejected with the configuration error
and no run output; `"hokuyo"` constructs successfully. -/
theorem C7_witness :
    runExtraction "radar" decodeNat [[5]] =
      .error (RunError.config "\"radar\" lidar sensor type not supported") ∧
    lidarInit "hokuyo" =
      .ok { sensor := "hokuyo", name := "hokuyo", available_point_time := false } :=
  ⟨(C7_theorem decodeNat [[5]] "radar").1 (by decide),
   (C7_theorem decodeNat [[5]] "hokuyo").2 (by decide)⟩

/-- Claim C8 as stated is false: in every decoder the manifest append
happens before the file write; for the empty Ouster fixture message the
append is at index 0 and the write at index 1 of the event trace, so the
write never precedes the append. -/
theorem C8_counterexample :
    ¬ ∀ (i j : ℕ) (fn : String) (ply : PLYFile),
        (singleOuster oustMsgB).events[i]? = some (Event.append fn) →
        (singleOuster oustMsgB).events[j]? = some (Event.write fn ply) →
        j < i := by
  intro h
  have h01 := h 0 1 "7.ply" (savePLY [] []) (by rfl) (by rfl)
  omega

/-- Claim C8 (amended): for every successfully decoded message the
orchestrator first appends the frame's identifier to the manifest
accumulator and only then writes the frame's point-cloud file: each
decoder's event trace is exactly the append followed by the write of the
same filename. -/
theorem C8_theorem (om : OusterMsg) (apt : Bool) (vm : VelMsg)
    (load : String → Except Unit (List Vec3)) (stampOf : String → ℕ)
    (msg : String) (f : Frame) :
    (singleOuster om).events = [Event.append (singleOuster om).filename,
      Event.write (singleOuster om).filename
        (savePLY (singleOuster om).xyz (singleOuster om).irt)] ∧
    (singleVelodyne apt vm).events = [Event.append (singleVelodyne apt vm).filename,
      Event.write (singleVelodyne apt vm).filename
        (savePLY (singleVelodyne apt vm).xyz (singleVelodyne apt vm).irt)] ∧
    (singleHokuyo load stampOf msg = .ok f →
      f.events = [Event.append f.filename,
        Event.write f.filename (savePLY f.xyz f.irt)]) := by
  refine ⟨rfl, rfl, ?_⟩
  intro hok
  cases h1 : load msg with
  | ok cloud =>
    simp only [singleHokuyo, h1] at hok
    cases hok
    rfl
  | error e =>
    cases h2 : load (pyReplaceNan msg) with
    | ok cloud =>
      simp only [singleHokuyo, h1, h2] at hok
      cases hok
      rfl
    | error e2 =>
      simp only [singleHokuyo, h1, h2] at hok
      cases hok

/-- Claim C8 witness: the decoded Hokuyo fixture frame's events are the
append followed by the write. -/
theorem C8_witness :
    (mkHokuyoFrame 1 []).events = [Event.append (mkHokuyoFrame 1 []).filename,
      Event.write (mkHokuyoFrame 1 []).filename
        (savePLY (mkHokuyoFrame 1 []).xyz (mkHokuyoFrame 1 []).irt)] :=
  (C8_theorem oustMsgB true velMsgA loadNil stampLen "m" (mkHokuyoFrame 1 [])).2.2 (by rfl)

/-- Claim C9: when no segments/messages are available for the configured
topic, the run produces no point-cloud files and no manifest, without
error: the extraction is skipped as a silent short-circuit. -/
theorem C9_theorem {Msg : Type} (decode : Msg → Except Unit Frame)
    (bags : List (List Msg)) (h : bags.flatten = []) :
    extractWith decode bags = .ok { files := [], manifestLines := none } := by
  rw [extractWith, isAvailable, h]
  rfl

/-- Claim C9 witness: a run over one empty segment produces no files and no
manifest. -/
theorem C9_witness :
    extractWith decodeNat [[]] = .ok { files := [], manifestLines := none } :=
  C9_theorem decodeNat [[]] rfl

/-- Claim C10: every processed message, for every sensor type, appends
exactly one filename `"<timestamp_ns>.ply"` to the manifest accumulator and
performs exactly one file write, even when the decoded frame carries zero
points; hence a successful run over k messages yields exactly k accumulator
entries, k written files and k manifest rows. -/
theorem C10_theorem {Msg : Type} (decode : Msg → Except Unit Frame)
    (bags : List (List Msg))
    (hall : ∀ m ∈ bags.flatten, (decode m).isOk = true)
    (hne : bags.flatten ≠ []) :
    (∃ out, extractWith decode bags = .ok out ∧
      out.files = bags.flatten.map (fun m => (frameOf decode m).filename) ∧
      out.files.length = bags.flatten.length ∧
      ∃ rows, out.manifestLines = some (saveCSVLines rows) ∧
        rows.length = bags.flatten.length) ∧
    (∀ m : OusterMsg, (singleOuster m).filename = toString m.stamp ++ ".ply" ∧
      (singleOuster m).events.countP (fun e => match e with
        | Event.append _ => true | _ => false) = 1 ∧
      (singleOuster m).events.countP (fun e => match e with
        | Event.write _ _ => true | _ => false) = 1) ∧
    (∀ (apt : Bool) (m : VelMsg),
      (singleVelodyne apt m).filename = toString m.stamp ++ ".ply" ∧
      (singleVelodyne apt m).events.countP (fun e => match e with
        | Event.append _ => true | _ => false) = 1 ∧
      (singleVelodyne apt m).events.countP (fun e => match e with
        | Event.write _ _ => true | _ => false) = 1) ∧
    (∀ (stamp : ℕ) (cloud : List Vec3),
      (mkHokuyoFrame stamp cloud).filename = toString stamp ++ ".ply" ∧
      (mkHokuyoFrame stamp cloud).events.countP (fun e => match e with
        | Event.append _ => true | _ => false) = 1 ∧
      (mkHokuyoFrame stamp cloud).events.countP (fun e => match e with
        | Event.write _ _ => true | _ => false) = 1) := by
  have hav : isAvailable bags = true := by
    rw [isAvailable]
    cases hb : bags.flatten with
    | nil => exact absurd hb hne
    | cons a as => rfl
  have hrun : extractWith decode bags = .ok
      { files := (bags.flatten.map (frameOf decode)).map (fun f => f.filename)
        manifestLines := some (saveCSVLines (sortStr
          ((bags.flatten.map (frameOf decode)).map (fun f => f.filename)))) } := by
    rw [extractWith, if_pos hav, decodeAll_ok decode bags.flatten hall]
  refine ⟨⟨_, hrun, ?_, ?_, _, rfl, ?_⟩, fun m => ⟨rfl, rfl, rfl⟩,
    fun apt m => ⟨rfl, rfl, rfl⟩, fun stamp cloud => ⟨rfl, rfl, rfl⟩⟩
  · rw [List.map_map]
    rfl
  · rw [List.length_map, List.length_map]
  · rw [(sortStr_perm _).length_eq, List.length_map, List.length_map]

/-- Claim C10 witness: a successful run over two messages writes two files. -/
theorem C10_witness :
    ∃ out, extractWith decodeNat [[5, 3]] = .ok out ∧ out.files.length = 2 := by
  obtain ⟨⟨out, h1, _, h3, _⟩, _⟩ := C10_theorem decodeNat [[5, 3]] (by decide) (by decide)
  exact ⟨out, h1, by rw [h3]; rfl⟩

/-- Claim C3: the emitted manifest consists of the header line followed by
the entries sorted ascending by filename string, and the emitted manifest is
invariant under any permutation of the processed frames. -/
theorem C3_theorem {Msg : Type} (decode : Msg → Except Unit Frame)
    (bags bags₂ : List (List Msg)) (hperm : bags.flatten.Perm bags₂.flatten) :
    manifestOf (extractWith decode bags) = manifestOf (extractWith decode bags₂) ∧
    (∀ lines, manifestOf (extractWith decode bags) = some lines →
      lines = saveCSVLines lines.tail ∧ List.Sorted (· ≤ ·) lines.tail) := by
  have hiff : bags.flatten.isEmpty = bags₂.flatten.isEmpty := by
    cases h1 : bags.flatten with
    | nil =>
      have hp := hperm
      rw [h1] at hp
      rw [hp.symm.eq_nil]
    | cons a as =>
      cases h2 : bags₂.flatten with
      | nil =>
        have hp := hperm
        rw [h1, h2] at hp
        cases hp.eq_nil
      | cons b bs => rfl
  constructor
  · by_cases hall : ∀ m ∈ bags.flatten, (decode m).isOk = true
    · have hall₂ : ∀ m ∈ bags₂.flatten, (decode m).isOk = true :=
        fun m hm => hall m (hperm.symm.subset hm)
      rw [manifest_extractWith, manifest_extractWith, hiff]
      cases he : bags₂.flatten.isEmpty with
      | true => rfl
      | false =>
        rw [if_neg Bool.false_ne_true, if_neg Bool.false_ne_true,
          if_pos hall, if_pos hall₂]
        rw [sortStr_congr (hperm.map _)]
    · have hall₂ : ¬ ∀ m ∈ bags₂.flatten, (decode m).isOk = true :=
        fun h => hall fun m hm => h m (hperm.subset hm)
      rw [manifest_extractWith, manifest_extractWith, hiff]
      cases he : bags₂.flatten.isEmpty with
      | true => rfl
      | false =>
        rw [if_neg Bool.false_ne_true, if_neg Bool.false_ne_true,
          if_neg hall, if_neg hall₂]
  · intro lines hl
    rw [manifest_extractWith] at hl
    by_cases h1 : bags.flatten.isEmpty = true
    · rw [if_pos h1] at hl
      cases hl
    · rw [if_neg h1] at hl
      by_cases hall : ∀ m ∈ bags.flatten, (decode m).isOk = true
      · rw [if_pos hall] at hl
        cases hl
        exact ⟨rfl, sortStr_sorted _⟩
      · rw [if_neg hall] at hl
        cases hl

/-- Claim C3 witness: two runs over the same two frames in opposite orders
emit the same manifest, whose rows are sorted ascending. -/
theorem C3_witness :
    manifestOf (extractWith decodeNat [[5, 3]]) =
      manifestOf (extractWith decodeNat [[3], [5]]) ∧
    List.Sorted (· ≤ ·) (["# timestamp [ns]", "3.ply", "5.ply"] : List String).tail :=
  ⟨(C3_theorem decodeNat [[5, 3]] [[3], [5]] (by decide)).1,
   ((C3_theorem decodeNat [[5, 3]] [[3], [5]] (by decide)).2
      ["# timestamp [ns]", "3.ply", "5.ply"] (by decide)).2⟩
